import Mathlib

/-!
Shallow embedding of the three Fivetran-SDK connector scripts
(`src/connectors/datagov/connector.py`, `src/connectors/newsapi/connector.py`,
`src/connectors/newsdata/connector.py`) and proofs about the claims of the
specification.

Modelling conventions:
* JSON values are the inductive `JVal`; Python dicts are association lists.
* Network fetches are an oracle parameter `fo : ... → Nat → Nat → Except Unit
  (List rec)`; the second-to-last argument is the position (page offset or page
  number) and the last argument is the attempt index at that position.  The
  source code performs a single attempt per position, so every call in the
  embedding passes attempt index `0`; the list of `(position, attempt)` pairs
  actually issued is returned in the result so that retry behaviour is
  observable.
* Wall-clock time is modelled by a `clock : Nat → String` parameter: the clock
  argument is the number of completed fetch calls, the only suspension points
  of a run (spec section 5).  `clock 0` is the run-start time and
  `clock n` after `n` fetches is the run-end time.
* `datetime.fromisoformat` is Python standard library code, external to the
  repository; it is a parameter `fromiso : String → Option Int` (timestamps
  modelled as integers, `none` meaning the call raises).
* Fields of typed source records follow the API contract of each endpoint
  (for example a title is a string or null); inputs on which the Python code
  would raise inside untried per-record code are outside the model.
* The thread pool of the datagov connector is modelled sequentially in
  submission order; the spec (section 5) states emission order is irrelevant.
* Local debug artifacts (JSONL files, the SQLite warehouse export) and the
  fatal missing-api-key configuration check are I/O respectively pre-run
  validation outside the modelled sync loop.
-/

/-- JSON-like values as returned by the upstream REST APIs. -/
inductive JVal where
  | null : JVal
  | str : String → JVal
  | num : Int → JVal
  | arr : List JVal → JVal
  | obj : List (String × JVal) → JVal

/-- Lookup in a Python dict modelled as an association list, with a default
value returned only when the key is absent (the semantics of `dict.get`). -/
def dictGet (d : List (String × JVal)) (k : String) (default : JVal) : JVal :=
  match d.find? (fun p => p.1 == k) with
  | some p => p.2
  | none => default

/-- Embedding of an optional string field as a JSON value. -/
def jvalOfOptStr : Option String → JVal
  | none => JVal.null
  | some s => JVal.str s

/-- Python `str()` applied to a JSON value.  `str(None)` is the literal string
"None".  The list/object cases are abstracted to placeholders; no claim
depends on their exact rendering. -/
def pythonStr : JVal → String
  | JVal.null => "None"
  | JVal.str s => s
  | JVal.num n => toString n
  | JVal.arr _ => "<arr>"
  | JVal.obj _ => "<obj>"

/-- Lookup of a column in an emitted record (no default). -/
def recordGet (r : List (String × JVal)) (k : String) : Option JVal :=
  (r.find? (fun p => p.1 == k)).map Prod.snd

/-- Scalar (non-nested) JSON values. -/
def scalarVal : JVal → Bool
  | JVal.null => true
  | JVal.str _ => true
  | JVal.num _ => true
  | _ => false

/-- Flat values as required of destination columns: scalars, or arrays of
scalars (JSON-array form); never objects or nested arrays. -/
def flatVal : JVal → Bool
  | JVal.arr xs => xs.all scalarVal
  | JVal.obj _ => false
  | _ => true

/-- Python `str.lower()`, modelled as character-wise case folding over the
character list of the string. -/
def pyLower (s : String) : String := String.mk (s.data.map Char.toLower)

/-- Python `str.strip()`: remove leading and trailing whitespace, modelled
over the character list of the string. -/
def pyStrip (s : String) : String :=
  String.mk (((s.data.dropWhile Char.isWhitespace).reverse.dropWhile
    Char.isWhitespace).reverse)

/-! ## The datagov connector (`src/connectors/datagov/connector.py`) -/

/-- Source record of the CKAN `package_search` endpoint, typed by the fields
the connector reads (`connector.py` lines 62-73 and 222). -/
structure DSRecord where
  id : JVal := JVal.null
  name : JVal := JVal.null
  title : JVal := JVal.null
  metadata_created : JVal := JVal.null
  metadata_modified : Option String := none
  organization : Option (List (String × JVal)) := none
  resources : List JVal := []
  tags : List (List (String × JVal)) := []

/-- Embedding of `parse_iso8601` (`datagov/connector.py` lines 35-44): a falsy
argument (absent or empty) yields `None`; otherwise a trailing `Z` is dropped
and `datetime.fromisoformat` is applied, any exception yielding `None`
(modelled by `fromiso` returning `none`). -/
def parse_iso8601 (fromiso : String → Option Int) (iso_str : Option String) : Option Int :=
  match iso_str with
  | none => none
  | some s =>
    if s = "" then none
    else fromiso (if s.endsWith "Z" then s.dropRight 1 else s)

/-- Incremental filter of the datagov update loop (`datagov/connector.py`
lines 222-224): a record is skipped exactly when `last_run_dt and mod_dt and
mod_dt <= last_run_dt` holds. -/
def datagovSkip (fromiso : String → Option Int) (last_run_dt : Option Int)
    (ds : DSRecord) : Bool :=
  match last_run_dt, parse_iso8601 fromiso ds.metadata_modified with
  | some l, some m => m ≤ l
  | _, _ => false

/-- Embedding of the `formatted` dict built by `process_dataset_record`
(`datagov/connector.py` lines 62-73). -/
def process_dataset_record (ds : DSRecord) : List (String × JVal) :=
  [("id", ds.id),
   ("name", ds.name),
   ("title", ds.title),
   ("metadata_created", ds.metadata_created),
   ("metadata_modified", jvalOfOptStr ds.metadata_modified),
   ("organization",
     match ds.organization with
     | some o => if o.isEmpty then JVal.null else dictGet o "title" JVal.null
     | none => JVal.null),
   ("num_resources", JVal.num (Int.ofNat ds.resources.length)),
   ("tags", JVal.arr (ds.tags.map (fun t => dictGet t "name" JVal.null)))]

/-- Column names of the `datasets` table declared by `schema`
(`datagov/connector.py` lines 90-106). -/
def datagov_schema_columns : List String :=
  ["id", "name", "title", "metadata_created", "metadata_modified",
   "organization", "num_resources", "tags"]

/-- Hypothesis that the pass-through and extracted fields of a CKAN record are
scalars, as the API contract provides. -/
def DSScalar (ds : DSRecord) : Prop :=
  scalarVal ds.id = true ∧ scalarVal ds.name = true ∧ scalarVal ds.title = true ∧
  scalarVal ds.metadata_created = true ∧
  (∀ o, ds.organization = some o → scalarVal (dictGet o "title" JVal.null) = true) ∧
  (∀ t ∈ ds.tags, scalarVal (dictGet t "name" JVal.null) = true)

/-- Configuration of the datagov connector (`datagov/connector.py` lines
191-193), with the defaults of the source. -/
structure DatagovCfg where
  page_size : Nat := 100
  max_rows : Nat := 1000

/-- Persisted state of the datagov connector: the keys `last_start` and
`last_run` of the Python state dict (`none` meaning the key is absent). -/
structure DatagovState where
  last_start : Option Nat := none
  last_run : Option String := none
deriving DecidableEq

/-- Operations emitted towards the SDK by the datagov connector. -/
inductive DatagovOp where
  | upsert : List (String × JVal) → DatagovOp
  | checkpoint : DatagovState → DatagovOp

/-- Result of the page loop of `update` (`datagov/connector.py` lines
208-238). -/
structure DGLoopOut where
  emitted : List (List (String × JVal))
  final_start : Nat
  attempts : List (Nat × Nat)
  pages : Nat

/-- Embedding of the `while True` page loop of the datagov `update`
(`datagov/connector.py` lines 208-238): fetch one page at `start` (a failing
fetch or an empty page ends the loop), filter by the incremental timestamp
condition, upsert every kept record, advance `start` by the page size and stop
once `total_fetched` reaches `MAX_ROWS`.  The structural `fuel` argument only
bounds the recursion: `update` passes `MAX_ROWS + 1`, which the loop can never
exhaust because every continued iteration adds at least one row to `total`
while `total` stays below `MAX_ROWS`. -/
def datagovLoop (PS MR : Nat) (fromiso : String → Option Int)
    (last_run_dt : Option Int)
    (fo : Nat → Nat → Except Unit (List DSRecord)) :
    Nat → Nat → Nat → DGLoopOut
  | 0, start, _ =>
    { emitted := [], final_start := start, attempts := [], pages := 0 }
  | fuel + 1, start, total =>
    match fo start 0 with
    | Except.error _ =>
      { emitted := [], final_start := start, attempts := [(start, 0)], pages := 0 }
    | Except.ok [] =>
      { emitted := [], final_start := start, attempts := [(start, 0)], pages := 0 }
    | Except.ok (r :: rs) =>
      let kept := (r :: rs).filter (fun ds => !datagovSkip fromiso last_run_dt ds)
      if MR ≤ total + (r :: rs).length then
        { emitted := kept.map process_dataset_record,
          final_start := start + PS,
          attempts := [(start, 0)],
          pages := 1 }
      else
        let rest := datagovLoop PS MR fromiso last_run_dt fo fuel (start + PS)
          (total + (r :: rs).length)
        { emitted := kept.map process_dataset_record ++ rest.emitted,
          final_start := rest.final_start,
          attempts := (start, 0) :: rest.attempts,
          pages := 1 + rest.pages }

/-- Result of one invocation of the datagov `update`. -/
structure DatagovResult where
  ops : List DatagovOp
  checkpoint_state : DatagovState
  attempts : List (Nat × Nat)
  pages_processed : Nat

/-- Embedding of the datagov `update` (`datagov/connector.py` lines 185-248):
read `last_start` (default 0) and `last_run` from the prior state, run the
page loop, then write `last_start := start` and `last_run :=
datetime.now().isoformat()` (evaluated after the loop, hence at clock index
equal to the number of fetch calls) and checkpoint the state once, after all
upserts. -/
def datagov_update (cfg : DatagovCfg) (state : DatagovState)
    (fromiso : String → Option Int)
    (fo : Nat → Nat → Except Unit (List DSRecord))
    (clock : Nat → String) : DatagovResult :=
  let start0 := state.last_start.getD 0
  let last_run_dt := parse_iso8601 fromiso state.last_run
  let lp := datagovLoop cfg.page_size cfg.max_rows fromiso last_run_dt fo
    (cfg.max_rows + 1) start0 0
  let new_state : DatagovState :=
    { last_start := some lp.final_start,
      last_run := some (clock lp.attempts.length) }
  { ops := lp.emitted.map DatagovOp.upsert ++ [DatagovOp.checkpoint new_state],
    checkpoint_state := new_state,
    attempts := lp.attempts,
    pages_processed := lp.pages }

/-! ## Shared article processing of the newsapi and newsdata connectors
(`src/connectors/newsapi/connector.py` lines 93-115 and
`src/connectors/newsdata/connector.py` lines 122-147; the per-article code of
the two files is textually identical). -/

/-- Source article of the NewsAPI `everything` endpoint, typed by the fields
the connectors read.  `source` is absent or an object; `title` is a string or
null; `content` distinguishes an absent key (`none`) from a present value. -/
structure Article where
  source : Option (List (String × JVal)) := none
  author : JVal := JVal.null
  title : Option String := none
  description : JVal := JVal.null
  url : JVal := JVal.null
  urlToImage : JVal := JVal.null
  publishedAt : JVal := JVal.null
  content : Option JVal := none

/-- Embedding of `clean_title = article_title.lower().strip() if article_title
else None`: a missing, null or empty title gives `None`; otherwise the
lowercased, stripped title. -/
def clean_title (a : Article) : Option String :=
  match a.title with
  | none => none
  | some s => if s = "" then none else some (pyStrip (pyLower s))

/-- Truthiness of the optional cleaned title (`None` and the empty string are
falsy in Python). -/
def truthyTitle : Option String → Bool
  | none => false
  | some s => !(s == "")

/-- Value passed to `str()` for the content column:
`article.get('content', '')`. -/
def contentDefault (a : Article) : JVal :=
  match a.content with
  | none => JVal.str ""
  | some v => v

/-- Embedding of the `cleaned_article` dict built by both news connectors
(`newsapi/connector.py` lines 102-113, `newsdata/connector.py` lines
133-145). -/
def cleaned_article (full_query : String) (a : Article) : List (String × JVal) :=
  [("source_id",
     match a.source with
     | some src => dictGet src "id" JVal.null
     | none => JVal.null),
   ("source_name",
     match a.source with
     | some src => dictGet src "name" JVal.null
     | none => JVal.null),
   ("author", a.author),
   ("title", jvalOfOptStr a.title),
   ("description", a.description),
   ("url", a.url),
   ("urlToImage", a.urlToImage),
   ("publishedAt", a.publishedAt),
   ("content", JVal.str (pythonStr (contentDefault a))),
   ("search_keyword", JVal.str full_query)]

/-- Embedding of the per-page article loop shared by both news connectors:
skip an article whose truthy cleaned title was already seen this run, record a
truthy cleaned title as seen, and collect the cleaned article otherwise.
Returns the final seen set and the collected records in order. -/
def process_articles (q : String) (seen : List String) :
    List Article → List String × List (List (String × JVal))
  | [] => (seen, [])
  | a :: rest =>
    let ct := clean_title a
    if truthyTitle ct = true ∧ ct.getD "" ∈ seen then
      process_articles q seen rest
    else
      let seen1 := if truthyTitle ct then ct.getD "" :: seen else seen
      let r := process_articles q seen1 rest
      (r.1, cleaned_article q a :: r.2)

/-- Column names declared by the newsapi `schema`
(`newsapi/connector.py` lines 25-36). -/
def newsapi_schema_columns : List String :=
  ["source_id", "source_name", "author", "title", "description",
   "url", "urlToImage", "publishedAt", "content", "search_keyword"]

/-- Column names declared by the newsdata `schema`
(`newsdata/connector.py` lines 26-38). -/
def newsdata_schema_columns : List String :=
  ["source_id", "source_name", "author", "title", "description",
   "url", "urlToImage", "publishedAt", "content", "search_keyword"]

/-- Hypothesis that the pass-through fields of an article are scalars, as the
NewsAPI contract provides. -/
def ArticleScalar (a : Article) : Prop :=
  scalarVal a.author = true ∧ scalarVal a.description = true ∧
  scalarVal a.url = true ∧ scalarVal a.urlToImage = true ∧
  scalarVal a.publishedAt = true ∧
  (∀ src, a.source = some src →
    scalarVal (dictGet src "id" JVal.null) = true ∧
    scalarVal (dictGet src "name" JVal.null) = true)

/-- Maximum page size of the News API (`MAX_ARTICLES_PER_REQUEST`). -/
def maxArticlesPerRequest : Nat := 100

/-- Page bound of the news connectors (`MAX_PAGES_TO_FETCH`). -/
def maxPagesToFetch : Nat := 5

/-! ## The newsapi connector (`src/connectors/newsapi/connector.py`) -/

/-- Configuration shared by the news connectors: the required `api_key` is
assumed present (a missing key raises before any operation, outside the
modelled loop), `query_term` defaults to "general news". -/
structure NewsCfg where
  api_key : String := "key"
  query_term : Option String := none

/-- Operations the SDK offers to the newsapi connector.  The connector emits
one upsert per article; `checkpoint` is available in the SDK but the newsapi
`update` never emits it (the checkpoint logic was removed from that file). -/
inductive NewsapiOp where
  | upsert : List (String × JVal) → NewsapiOp
  | checkpoint : List (String × JVal) → NewsapiOp

/-- Result of the page loop shared in shape by the news connectors. -/
structure NewsLoopOut where
  seen : List String
  collected : List (List (String × JVal))
  attempts : List (Nat × Nat)

/-- Embedding of the newsapi page loop (`newsapi/connector.py` lines 71-119):
for `page` from 1 while `page <= MAX_PAGES_TO_FETCH`, fetch (a failure ends
the loop), stop on an empty page, process the articles, stop after a page
shorter than the page size, else advance one page.  The structural `fuel`
argument only bounds the recursion: `update` passes `MAX_PAGES_TO_FETCH + 1`,
which the loop can never exhaust starting from page 1 because the page
counter grows with every iteration and the loop stops past
`MAX_PAGES_TO_FETCH`. -/
def newsapiLoop (q : String)
    (fo : Nat → Nat → Except Unit (List Article)) :
    Nat → Nat → List String → NewsLoopOut
  | 0, _, seen =>
    { seen := seen, collected := [], attempts := [] }
  | fuel + 1, page, seen =>
    if maxPagesToFetch < page then
      { seen := seen, collected := [], attempts := [] }
    else
      match fo page 0 with
      | Except.error _ =>
        { seen := seen, collected := [], attempts := [(page, 0)] }
      | Except.ok articles =>
        if articles.isEmpty then
          { seen := seen, collected := [], attempts := [(page, 0)] }
        else
          let pr := process_articles q seen articles
          if articles.length < maxArticlesPerRequest then
            { seen := pr.1, collected := pr.2, attempts := [(page, 0)] }
          else
            let rest := newsapiLoop q fo fuel (page + 1) pr.1
            { seen := rest.seen,
              collected := pr.2 ++ rest.collected,
              attempts := (page, 0) :: rest.attempts }

/-- Result of one invocation of the newsapi `update`. -/
structure NewsapiResult where
  articles_to_upsert : List (List (String × JVal))
  ops : List NewsapiOp
  attempts : List (Nat × Nat)

/-- Embedding of the newsapi `update` (`newsapi/connector.py` lines 44-141):
run the page loop from page 1 with an empty seen set and an empty collection,
then yield one upsert per collected article; no checkpoint is issued (the
checkpoint logic was removed from this connector). -/
def newsapi_update (cfg : NewsCfg)
    (fo : Nat → Nat → Except Unit (List Article)) : NewsapiResult :=
  let full_query := cfg.query_term.getD "general news"
  let lp := newsapiLoop full_query fo (maxPagesToFetch + 1) 1 []
  { articles_to_upsert := lp.collected,
    ops := lp.collected.map NewsapiOp.upsert,
    attempts := lp.attempts }

/-! ## The newsdata connector (`src/connectors/newsdata/connector.py`) -/

/-- Persisted state of the newsdata connector: the `articles_cursor` key. -/
structure NewsdataState where
  articles_cursor : Option String := none
deriving DecidableEq

/-- Operations emitted towards the SDK by the newsdata connector: a single
upsert carrying the whole collected list, then a single checkpoint. -/
inductive NewsdataOp where
  | upsertList : List (List (String × JVal)) → NewsdataOp
  | checkpoint : NewsdataState → NewsdataOp

/-- Embedding of the newsdata page loop (`newsdata/connector.py` lines
96-154); identical control shape to the newsapi loop except that the page
counter is advanced before the short-page check, which does not change the
observable result.  The oracle additionally receives the `from_date` query
parameter. -/
def newsdataLoop (q from_date : String)
    (fo : String → Nat → Nat → Except Unit (List Article)) :
    Nat → Nat → List String → NewsLoopOut
  | 0, _, seen =>
    { seen := seen, collected := [], attempts := [] }
  | fuel + 1, page, seen =>
    if maxPagesToFetch < page then
      { seen := seen, collected := [], attempts := [] }
    else
      match fo from_date page 0 with
      | Except.error _ =>
        { seen := seen, collected := [], attempts := [(page, 0)] }
      | Except.ok articles =>
        if articles.isEmpty then
          { seen := seen, collected := [], attempts := [(page, 0)] }
        else
          let pr := process_articles q seen articles
          if articles.length < maxArticlesPerRequest then
            { seen := pr.1, collected := pr.2, attempts := [(page, 0)] }
          else
            let rest := newsdataLoop q from_date fo fuel (page + 1) pr.1
            { seen := rest.seen,
              collected := pr.2 ++ rest.collected,
              attempts := (page, 0) :: rest.attempts }

/-- Result of one invocation of the newsdata `update`. -/
structure NewsdataResult where
  collected : List (List (String × JVal))
  ops : List NewsdataOp
  checkpoint_state : NewsdataState
  attempts : List (Nat × Nat)

/-- Embedding of the newsdata `update` (`newsdata/connector.py` lines 46-165):
take `from_date` from the prior `articles_cursor`, or thirty days before the
run start on a first run; compute the new cursor value as the run-start
wall-clock time (`clock 0`, before any fetch) suffixed with `Z`; run the page
loop; yield one upsert of the whole collected list and one checkpoint of the
new cursor.  `minus30` abstracts the `timedelta(days=30)` subtraction. -/
def newsdata_update (cfg : NewsCfg) (state : NewsdataState)
    (minus30 : String → String)
    (fo : String → Nat → Nat → Except Unit (List Article))
    (clock : Nat → String) : NewsdataResult :=
  let full_query := cfg.query_term.getD "general news"
  let from_date :=
    match state.articles_cursor with
    | some s => s
    | none => minus30 (clock 0) ++ "Z"
  let new_cursor_value := clock 0 ++ "Z"
  let lp := newsdataLoop full_query from_date fo (maxPagesToFetch + 1) 1 []
  let new_state : NewsdataState := { articles_cursor := some new_cursor_value }
  { collected := lp.collected,
    ops := [NewsdataOp.upsertList lp.collected, NewsdataOp.checkpoint new_state],
    checkpoint_state := new_state,
    attempts := lp.attempts }

/-! ## Operation classifiers -/

/-- Checkpoint recognizer for datagov operations. -/
def isDgCheckpoint : DatagovOp → Bool
  | DatagovOp.checkpoint _ => true
  | _ => false

/-- Upsert recognizer for datagov operations. -/
def isDgUpsert : DatagovOp → Bool
  | DatagovOp.upsert _ => true
  | _ => false

/-- Checkpoint recognizer for newsapi operations. -/
def isNaCheckpoint : NewsapiOp → Bool
  | NewsapiOp.checkpoint _ => true
  | _ => false

/-- Checkpoint recognizer for newsdata operations. -/
def isNdCheckpoint : NewsdataOp → Bool
  | NewsdataOp.checkpoint _ => true
  | _ => false

/-! ## Concrete instances used by counterexamples and witnesses -/

/-- Timestamp parser standing for `datetime.fromisoformat` that accepts
nothing; the runs below never rely on timestamp parsing. -/
def fiNone : String → Option Int := fun _ => none

/-- Clock rendering the fetch-event count as a decimal string. -/
def tsClock : Nat → String := fun n => toString n

/-- Datagov fetch oracle that always returns an empty page. -/
def foEmptyD : Nat → Nat → Except Unit (List DSRecord) := fun _ _ => Except.ok []

/-- Datagov fetch oracle whose first attempt at any position fails while every
further attempt at the same position would succeed: a transient failure. -/
def c1_fetch : Nat → Nat → Except Unit (List DSRecord) :=
  fun _ att => if att = 0 then Except.error () else Except.ok [{ id := JVal.num 1 }]

/-- Datagov fetch oracle returning one record at position 0, then failing. -/
def c1w_fetch : Nat → Nat → Except Unit (List DSRecord) :=
  fun start _ => if start = 0 then Except.ok [{ id := JVal.num 1 }] else Except.error ()

/-- Datagov fetch oracle of the two-page scenario of the spec: 100 records at
position 0, 20 records at position 100, nothing beyond. -/
def c7_fetch : Nat → Nat → Except Unit (List DSRecord)
  | 0, _ => Except.ok ((List.range 100).map fun i => { id := JVal.num (Int.ofNat i) })
  | 100, _ => Except.ok ((List.range 20).map fun i => { id := JVal.num (Int.ofNat (100 + i)) })
  | _, _ => Except.ok []

/-- Newsapi fetch oracle that always returns an empty page. -/
def foEmptyA : Nat → Nat → Except Unit (List Article) := fun _ _ => Except.ok []

/-- Newsdata fetch oracle that always fails. -/
def foFailN : String → Nat → Nat → Except Unit (List Article) :=
  fun _ _ _ => Except.error ()

/-- Article with a one-space title. -/
def artSpace1 : Article := { title := some " ", url := JVal.str "u1" }

/-- Article with a two-space title and a different url. -/
def artSpace2 : Article := { title := some "  ", url := JVal.str "u2" }

/-- Article whose content key is present with value null. -/
def artContentNull : Article := { content := some JVal.null }

/-- Article whose content key is present with an empty string value. -/
def artContentEmpty : Article := { content := some (JVal.str "") }


/-! ## Branch equations of the page loops -/

/-- Equation of the datagov loop on exhausted fuel (unreachable from
`datagov_update`). -/
theorem dgLoop_zero {PS MR : Nat} {fi : String → Option Int} {lrd : Option Int}
    {fo : Nat → Nat → Except Unit (List DSRecord)} {start total : Nat} :
    datagovLoop PS MR fi lrd fo 0 start total =
      { emitted := [], final_start := start, attempts := [], pages := 0 } := rfl

/-- Equation of the datagov loop when the fetch fails. -/
theorem dgLoop_error {PS MR : Nat} {fi : String → Option Int} {lrd : Option Int}
    {fo : Nat → Nat → Except Unit (List DSRecord)} {fuel start total : Nat} {a : Unit}
    (h : fo start 0 = Except.error a) :
    datagovLoop PS MR fi lrd fo (fuel + 1) start total =
      { emitted := [], final_start := start, attempts := [(start, 0)], pages := 0 } := by
  simp only [datagovLoop, h]

/-- Equation of the datagov loop when the fetched page is empty. -/
theorem dgLoop_nil {PS MR : Nat} {fi : String → Option Int} {lrd : Option Int}
    {fo : Nat → Nat → Except Unit (List DSRecord)} {fuel start total : Nat}
    (h : fo start 0 = Except.ok []) :
    datagovLoop PS MR fi lrd fo (fuel + 1) start total =
      { emitted := [], final_start := start, attempts := [(start, 0)], pages := 0 } := by
  simp only [datagovLoop, h]

/-- Equation of the datagov loop when the fetched page reaches the row
bound. -/
theorem dgLoop_last {PS MR : Nat} {fi : String → Option Int} {lrd : Option Int}
    {fo : Nat → Nat → Except Unit (List DSRecord)} {fuel start total : Nat}
    {r : DSRecord} {rs : List DSRecord}
    (h : fo start 0 = Except.ok (r :: rs)) (hmr : MR ≤ total + (r :: rs).length) :
    datagovLoop PS MR fi lrd fo (fuel + 1) start total =
      { emitted := ((r :: rs).filter (fun ds => !datagovSkip fi lrd ds)).map process_dataset_record,
        final_start := start + PS,
        attempts := [(start, 0)],
        pages := 1 } := by
  simp only [datagovLoop, h]
  rw [if_pos hmr]

/-- Equation of the datagov loop when the fetched page is full and the row
bound has not been reached. -/
theorem dgLoop_step {PS MR : Nat} {fi : String → Option Int} {lrd : Option Int}
    {fo : Nat → Nat → Except Unit (List DSRecord)} {fuel start total : Nat}
    {r : DSRecord} {rs : List DSRecord}
    (h : fo start 0 = Except.ok (r :: rs)) (hmr : ¬ MR ≤ total + (r :: rs).length) :
    datagovLoop PS MR fi lrd fo (fuel + 1) start total =
      { emitted := ((r :: rs).filter (fun ds => !datagovSkip fi lrd ds)).map process_dataset_record
          ++ (datagovLoop PS MR fi lrd fo fuel (start + PS) (total + (r :: rs).length)).emitted,
        final_start := (datagovLoop PS MR fi lrd fo fuel (start + PS) (total + (r :: rs).length)).final_start,
        attempts := (start, 0) :: (datagovLoop PS MR fi lrd fo fuel (start + PS) (total + (r :: rs).length)).attempts,
        pages := 1 + (datagovLoop PS MR fi lrd fo fuel (start + PS) (total + (r :: rs).length)).pages } := by
  simp only [datagovLoop, h]
  rw [if_neg hmr]

/-- Equation of the newsapi loop on exhausted fuel (unreachable from
`newsapi_update`). -/
theorem naLoop_zero {q : String} {fo : Nat → Nat → Except Unit (List Article)}
    {page : Nat} {seen : List String} :
    newsapiLoop q fo 0 page seen = { seen := seen, collected := [], attempts := [] } := rfl

/-- Equation of the newsapi loop past the page bound. -/
theorem naLoop_done {q : String} {fo : Nat → Nat → Except Unit (List Article)}
    {fuel page : Nat} {seen : List String} (h : maxPagesToFetch < page) :
    newsapiLoop q fo (fuel + 1) page seen =
      { seen := seen, collected := [], attempts := [] } := by
  simp only [newsapiLoop]
  rw [if_pos h]

/-- Equation of the newsapi loop when the fetch fails. -/
theorem naLoop_error {q : String} {fo : Nat → Nat → Except Unit (List Article)}
    {fuel page : Nat} {seen : List String} {a : Unit}
    (hp : ¬ maxPagesToFetch < page) (h : fo page 0 = Except.error a) :
    newsapiLoop q fo (fuel + 1) page seen =
      { seen := seen, collected := [], attempts := [(page, 0)] } := by
  simp only [newsapiLoop]
  rw [if_neg hp, h]

/-- Equation of the newsapi loop when the fetched page is empty. -/
theorem naLoop_nil {q : String} {fo : Nat → Nat → Except Unit (List Article)}
    {fuel page : Nat} {seen : List String} {articles : List Article}
    (hp : ¬ maxPagesToFetch < page) (h : fo page 0 = Except.ok articles)
    (he : articles.isEmpty = true) :
    newsapiLoop q fo (fuel + 1) page seen =
      { seen := seen, collected := [], attempts := [(page, 0)] } := by
  simp only [newsapiLoop]
  rw [if_neg hp, h]
  simp [he]

/-- Equation of the newsapi loop when the fetched page is short. -/
theorem naLoop_short {q : String} {fo : Nat → Nat → Except Unit (List Article)}
    {fuel page : Nat} {seen : List String} {articles : List Article}
    (hp : ¬ maxPagesToFetch < page) (h : fo page 0 = Except.ok articles)
    (he : ¬ articles.isEmpty = true) (hs : articles.length < maxArticlesPerRequest) :
    newsapiLoop q fo (fuel + 1) page seen =
      { seen := (process_articles q seen articles).1,
        collected := (process_articles q seen articles).2,
        attempts := [(page, 0)] } := by
  simp only [newsapiLoop]
  rw [if_neg hp, h]
  simp only [if_neg he, if_pos hs]

/-- Equation of the newsapi loop when the fetched page is full. -/
theorem naLoop_step {q : String} {fo : Nat → Nat → Except Unit (List Article)}
    {fuel page : Nat} {seen : List String} {articles : List Article}
    (hp : ¬ maxPagesToFetch < page) (h : fo page 0 = Except.ok articles)
    (he : ¬ articles.isEmpty = true) (hs : ¬ articles.length < maxArticlesPerRequest) :
    newsapiLoop q fo (fuel + 1) page seen =
      { seen := (newsapiLoop q fo fuel (page + 1) (process_articles q seen articles).1).seen,
        collected := (process_articles q seen articles).2
          ++ (newsapiLoop q fo fuel (page + 1) (process_articles q seen articles).1).collected,
        attempts := (page, 0)
          :: (newsapiLoop q fo fuel (page + 1) (process_articles q seen articles).1).attempts } := by
  simp only [newsapiLoop]
  rw [if_neg hp, h]
  simp only [if_neg he, if_neg hs]

/-- Equation of the newsdata loop on exhausted fuel (unreachable from
`newsdata_update`). -/
theorem ndLoop_zero {q fd : String} {fo : String → Nat → Nat → Except Unit (List Article)}
    {page : Nat} {seen : List String} :
    newsdataLoop q fd fo 0 page seen = { seen := seen, collected := [], attempts := [] } := rfl

/-- Equation of the newsdata loop past the page bound. -/
theorem ndLoop_done {q fd : String} {fo : String → Nat → Nat → Except Unit (List Article)}
    {fuel page : Nat} {seen : List String} (h : maxPagesToFetch < page) :
    newsdataLoop q fd fo (fuel + 1) page seen =
      { seen := seen, collected := [], attempts := [] } := by
  simp only [newsdataLoop]
  rw [if_pos h]

/-- Equation of the newsdata loop when the fetch fails. -/
theorem ndLoop_error {q fd : String} {fo : String → Nat → Nat → Except Unit (List Article)}
    {fuel page : Nat} {seen : List String} {a : Unit}
    (hp : ¬ maxPagesToFetch < page) (h : fo fd page 0 = Except.error a) :
    newsdataLoop q fd fo (fuel + 1) page seen =
      { seen := seen, collected := [], attempts := [(page, 0)] } := by
  simp only [newsdataLoop]
  rw [if_neg hp, h]

/-- Equation of the newsdata loop when the fetched page is empty. -/
theorem ndLoop_nil {q fd : String} {fo : String → Nat → Nat → Except Unit (List Article)}
    {fuel page : Nat} {seen : List String} {articles : List Article}
    (hp : ¬ maxPagesToFetch < page) (h : fo fd page 0 = Except.ok articles)
    (he : articles.isEmpty = true) :
    newsdataLoop q fd fo (fuel + 1) page seen =
      { seen := seen, collected := [], attempts := [(page, 0)] } := by
  simp only [newsdataLoop]
  rw [if_neg hp, h]
  simp [he]

/-- Equation of the newsdata loop when the fetched page is short. -/
theorem ndLoop_short {q fd : String} {fo : String → Nat → Nat → Except Unit (List Article)}
    {fuel page : Nat} {seen : List String} {articles : List Article}
    (hp : ¬ maxPagesToFetch < page) (h : fo fd page 0 = Except.ok articles)
    (he : ¬ articles.isEmpty = true) (hs : articles.length < maxArticlesPerRequest) :
    newsdataLoop q fd fo (fuel + 1) page seen =
      { seen := (process_articles q seen articles).1,
        collected := (process_articles q seen articles).2,
        attempts := [(page, 0)] } := by
  simp only [newsdataLoop]
  rw [if_neg hp, h]
  simp only [if_neg he, if_pos hs]

/-- Equation of the newsdata loop when the fetched page is full. -/
theorem ndLoop_step {q fd : String} {fo : String → Nat → Nat → Except Unit (List Article)}
    {fuel page : Nat} {seen : List String} {articles : List Article}
    (hp : ¬ maxPagesToFetch < page) (h : fo fd page 0 = Except.ok articles)
    (he : ¬ articles.isEmpty = true) (hs : ¬ articles.length < maxArticlesPerRequest) :
    newsdataLoop q fd fo (fuel + 1) page seen =
      { seen := (newsdataLoop q fd fo fuel (page + 1) (process_articles q seen articles).1).seen,
        collected := (process_articles q seen articles).2
          ++ (newsdataLoop q fd fo fuel (page + 1) (process_articles q seen articles).1).collected,
        attempts := (page, 0)
          :: (newsdataLoop q fd fo fuel (page + 1) (process_articles q seen articles).1).attempts } := by
  simp only [newsdataLoop]
  rw [if_neg hp, h]
  simp only [if_neg he, if_neg hs]

/-! ## Loop invariants of the datagov connector -/

/-- Every fetch of a datagov run is a first attempt: no position is ever
retried. -/
theorem dgLoop_attempts_zero (PS MR : Nat) (fi : String → Option Int)
    (lrd : Option Int) (fo : Nat → Nat → Except Unit (List DSRecord))
    (fuel start total : Nat) :
    ∀ p ∈ (datagovLoop PS MR fi lrd fo fuel start total).attempts, p.2 = 0 := by
  induction fuel generalizing start total with
  | zero => rw [dgLoop_zero]; simp
  | succ fuel ih =>
    rcases hf : fo start 0 with a | results
    · rw [dgLoop_error hf]
      intro p hp
      simp at hp
      simp [hp]
    · cases results with
      | nil =>
        rw [dgLoop_nil hf]
        intro p hp
        simp at hp
        simp [hp]
      | cons r rs =>
        by_cases hmr : MR ≤ total + (r :: rs).length
        · rw [dgLoop_last hf hmr]
          intro p hp
          simp at hp
          simp [hp]
        · rw [dgLoop_step hf hmr]
          intro p hp
          simp only [List.mem_cons] at hp
          rcases hp with hp | hp
          · simp [hp]
          · exact ih _ _ p hp

/-- Every fetch of a datagov run except the last returned a nonempty page:
the first failing (or empty) fetch ends the page loop. -/
theorem dgLoop_prefix_ok (PS MR : Nat) (fi : String → Option Int)
    (lrd : Option Int) (fo : Nat → Nat → Except Unit (List DSRecord))
    (fuel start total : Nat) :
    ∀ p ∈ (datagovLoop PS MR fi lrd fo fuel start total).attempts.dropLast,
      ∃ r rs, fo p.1 0 = Except.ok (r :: rs) := by
  induction fuel generalizing start total with
  | zero => rw [dgLoop_zero]; simp
  | succ fuel ih =>
    rcases hf : fo start 0 with a | results
    · rw [dgLoop_error hf]; simp
    · cases results with
      | nil => rw [dgLoop_nil hf]; simp
      | cons r rs =>
        by_cases hmr : MR ≤ total + (r :: rs).length
        · rw [dgLoop_last hf hmr]; simp
        · rw [dgLoop_step hf hmr]
          by_cases hnil :
            (datagovLoop PS MR fi lrd fo fuel (start + PS) (total + (r :: rs).length)).attempts = []
          · rw [hnil]
            simp
          · rw [List.dropLast_cons_of_ne_nil hnil]
            intro p hp
            simp only [List.mem_cons] at hp
            rcases hp with hp | hp
            · subst hp
              exact ⟨r, rs, hf⟩
            · exact ih _ _ p hp

/-- The final position of the datagov loop is the initial position advanced by
one page size per successfully processed page. -/
theorem dgLoop_final_start_eq (PS MR : Nat) (fi : String → Option Int)
    (lrd : Option Int) (fo : Nat → Nat → Except Unit (List DSRecord))
    (fuel start total : Nat) :
    (datagovLoop PS MR fi lrd fo fuel start total).final_start =
      start + PS * (datagovLoop PS MR fi lrd fo fuel start total).pages := by
  induction fuel generalizing start total with
  | zero => rw [dgLoop_zero]; simp
  | succ fuel ih =>
    rcases hf : fo start 0 with a | results
    · rw [dgLoop_error hf]; simp
    · cases results with
      | nil => rw [dgLoop_nil hf]; simp
      | cons r rs =>
        by_cases hmr : MR ≤ total + (r :: rs).length
        · rw [dgLoop_last hf hmr]; simp [Nat.mul_one]
        · rw [dgLoop_step hf hmr]
          simp only []
          rw [ih]
          ring

/-- Every record upserted by the datagov loop is the formatting of some source
record. -/
theorem dgLoop_emitted_shape (PS MR : Nat) (fi : String → Option Int)
    (lrd : Option Int) (fo : Nat → Nat → Except Unit (List DSRecord))
    (fuel start total : Nat) :
    ∀ rec ∈ (datagovLoop PS MR fi lrd fo fuel start total).emitted,
      ∃ ds, rec = process_dataset_record ds := by
  induction fuel generalizing start total with
  | zero => rw [dgLoop_zero]; simp
  | succ fuel ih =>
    rcases hf : fo start 0 with a | results
    · rw [dgLoop_error hf]; simp
    · cases results with
      | nil => rw [dgLoop_nil hf]; simp
      | cons r rs =>
        by_cases hmr : MR ≤ total + (r :: rs).length
        · rw [dgLoop_last hf hmr]
          intro rec hrec
          simp only [List.mem_map] at hrec
          obtain ⟨ds, _, hds⟩ := hrec
          exact ⟨ds, hds.symm⟩
        · rw [dgLoop_step hf hmr]
          intro rec hrec
          simp only [List.mem_append, List.mem_map] at hrec
          rcases hrec with ⟨ds, _, hds⟩ | hrec
          · exact ⟨ds, hds.symm⟩
          · exact ih _ _ rec hrec
theorem truthyTitle_iff (o : Option String) :
    truthyTitle o = true ↔ ∃ t, o = some t ∧ t ≠ "" := by
  cases o with
  | none => simp [truthyTitle]
  | some s =>
    simp [truthyTitle]

theorem pa_shape (q : String) (seen : List String) (as : List Article) :
    ∀ rec ∈ (process_articles q seen as).2, ∃ a ∈ as, rec = cleaned_article q a := by
  induction as generalizing seen with
  | nil => simp [process_articles]
  | cons a rest ih =>
    simp only [process_articles]
    split
    · intro rec hrec
      obtain ⟨b, hb, hrb⟩ := ih seen rec hrec
      exact ⟨b, List.mem_cons_of_mem _ hb, hrb⟩
    · intro rec hrec
      simp only [List.mem_cons] at hrec
      rcases hrec with hrec | hrec
      · exact ⟨a, List.mem_cons_self a rest, hrec⟩
      · obtain ⟨b, hb, hrb⟩ := ih _ rec hrec
        exact ⟨b, List.mem_cons_of_mem _ hb, hrb⟩

theorem pa_append (q : String) (seen : List String) (xs ys : List Article) :
    process_articles q seen (xs ++ ys) =
      ((process_articles q (process_articles q seen xs).1 ys).1,
       (process_articles q seen xs).2 ++ (process_articles q (process_articles q seen xs).1 ys).2) := by
  induction xs generalizing seen with
  | nil => simp [process_articles]
  | cons a rest ih =>
    simp only [List.cons_append, process_articles]
    split
    · exact ih seen
    · simp only [List.append_eq, ih, List.cons_append]

theorem pa_seen_mem (q : String) (seen : List String) (as : List Article) (t : String) :
    t ∈ (process_articles q seen as).1 ↔
      t ∈ seen ∨ ∃ a ∈ as, clean_title a = some t ∧ t ≠ "" := by
  induction as generalizing seen with
  | nil => simp [process_articles]
  | cons a rest ih =>
    simp only [process_articles]
    split
    · rename_i hcond
      rw [ih]
      obtain ⟨ht, hmem⟩ := hcond
      obtain ⟨t0, ht0, ht0ne⟩ := (truthyTitle_iff _).mp ht
      constructor
      · rintro (h | h)
        · exact Or.inl h
        · obtain ⟨b, hb, hbt⟩ := h
          exact Or.inr ⟨b, List.mem_cons_of_mem _ hb, hbt⟩
      · rintro (h | ⟨b, hb, hbt, hne⟩)
        · exact Or.inl h
        · rcases List.mem_cons.mp hb with rfl | hb
          · rw [ht0] at hbt
            cases hbt
            rw [ht0] at hmem
            simp at hmem
            exact Or.inl hmem
          · exact Or.inr ⟨b, hb, hbt, hne⟩
    · rename_i hcond
      by_cases ht : truthyTitle (clean_title a) = true
      · obtain ⟨t0, ht0, ht0ne⟩ := (truthyTitle_iff _).mp ht
        simp only [ht, if_true]
        rw [ih]
        simp only [ht0, Option.getD_some, List.mem_cons]
        constructor
        · rintro ((rfl | h) | h)
          · exact Or.inr ⟨a, Or.inl rfl, ht0, ht0ne⟩
          · exact Or.inl h
          · obtain ⟨b, hb, hbt⟩ := h
            exact Or.inr ⟨b, Or.inr hb, hbt⟩
        · rintro (h | ⟨b, hb, hbt, hne⟩)
          · exact Or.inl (Or.inr h)
          · rcases hb with rfl | hb
            · rw [ht0] at hbt
              cases hbt
              exact Or.inl (Or.inl rfl)
            · exact Or.inr ⟨b, hb, hbt, hne⟩
      · simp only [ht, if_false]
        rw [ih]
        constructor
        · rintro (h | ⟨b, hb, hbt⟩)
          · exact Or.inl h
          · exact Or.inr ⟨b, List.mem_cons_of_mem _ hb, hbt⟩
        · rintro (h | ⟨b, hb, hbt, hne⟩)
          · exact Or.inl h
          · rcases List.mem_cons.mp hb with rfl | hb
            · exfalso
              apply ht
              rw [truthyTitle_iff]
              exact ⟨t, hbt, hne⟩
            · exact Or.inr ⟨b, hb, hbt, hne⟩

theorem pa_skip (q : String) (seen : List String) (a : Article) (ys : List Article)
    (t : String) (ht : clean_title a = some t) (hne : t ≠ "") (hmem : t ∈ seen) :
    process_articles q seen (a :: ys) = process_articles q seen ys := by
  have hbe : (t == "") = false := by
    simp [hne]
  simp only [process_articles, ht, truthyTitle, Option.getD_some, hbe, Bool.not_false,
    true_and]
  rw [if_pos hmem]

theorem pa_first (q : String) (seen : List String) (a : Article) (ys : List Article)
    (t : String) (ht : clean_title a = some t) (hne : t ≠ "") (hmem : t ∉ seen) :
    process_articles q seen (a :: ys) =
      ((process_articles q (t :: seen) ys).1,
       cleaned_article q a :: (process_articles q (t :: seen) ys).2) := by
  have hbe : (t == "") = false := by
    simp [hne]
  simp only [process_articles, ht, truthyTitle, Option.getD_some, hbe, Bool.not_false,
    true_and, if_true]
  rw [if_neg hmem]


/-! ## Loop invariants of the news connectors -/

theorem naLoop_attempts_zero (q : String) (fo : Nat → Nat → Except Unit (List Article))
    (fuel page : Nat) (seen : List String) :
    ∀ p ∈ (newsapiLoop q fo fuel page seen).attempts, p.2 = 0 := by
  induction fuel generalizing page seen with
  | zero => rw [naLoop_zero]; simp
  | succ fuel ih =>
    by_cases hp : maxPagesToFetch < page
    · rw [naLoop_done hp]; simp
    · rcases hf : fo page 0 with a | articles
      · rw [naLoop_error hp hf]
        intro p hp2; simp at hp2; simp [hp2]
      · by_cases he : articles.isEmpty = true
        · rw [naLoop_nil hp hf he]
          intro p hp2; simp at hp2; simp [hp2]
        · by_cases hs : articles.length < maxArticlesPerRequest
          · rw [naLoop_short hp hf he hs]
            intro p hp2; simp at hp2; simp [hp2]
          · rw [naLoop_step hp hf he hs]
            intro p hp2
            simp only [List.mem_cons] at hp2
            rcases hp2 with hp2 | hp2
            · simp [hp2]
            · exact ih _ _ p hp2

theorem naLoop_prefix_full (q : String) (fo : Nat → Nat → Except Unit (List Article))
    (fuel page : Nat) (seen : List String) :
    ∀ p ∈ (newsapiLoop q fo fuel page seen).attempts.dropLast,
      ∃ arts, fo p.1 0 = Except.ok arts ∧ arts.isEmpty = false ∧
        ¬ arts.length < maxArticlesPerRequest := by
  induction fuel generalizing page seen with
  | zero => rw [naLoop_zero]; simp
  | succ fuel ih =>
    by_cases hp : maxPagesToFetch < page
    · rw [naLoop_done hp]; simp
    · rcases hf : fo page 0 with a | articles
      · rw [naLoop_error hp hf]; simp
      · by_cases he : articles.isEmpty = true
        · rw [naLoop_nil hp hf he]; simp
        · by_cases hs : articles.length < maxArticlesPerRequest
          · rw [naLoop_short hp hf he hs]; simp
          · rw [naLoop_step hp hf he hs]
            by_cases hnil :
              (newsapiLoop q fo fuel (page + 1) (process_articles q seen articles).1).attempts = []
            · rw [hnil]
              simp
            · rw [List.dropLast_cons_of_ne_nil hnil]
              intro p hp2
              simp only [List.mem_cons] at hp2
              rcases hp2 with hp2 | hp2
              · subst hp2
                exact ⟨articles, hf, by simpa using he, hs⟩
              · exact ih _ _ p hp2

theorem naLoop_collected_shape (q : String) (fo : Nat → Nat → Except Unit (List Article))
    (fuel page : Nat) (seen : List String) :
    ∀ rec ∈ (newsapiLoop q fo fuel page seen).collected, ∃ a, rec = cleaned_article q a := by
  induction fuel generalizing page seen with
  | zero => rw [naLoop_zero]; simp
  | succ fuel ih =>
    by_cases hp : maxPagesToFetch < page
    · rw [naLoop_done hp]; simp
    · rcases hf : fo page 0 with a | articles
      · rw [naLoop_error hp hf]; simp
      · by_cases he : articles.isEmpty = true
        · rw [naLoop_nil hp hf he]; simp
        · by_cases hs : articles.length < maxArticlesPerRequest
          · rw [naLoop_short hp hf he hs]
            intro rec hrec
            obtain ⟨b, _, hrb⟩ := pa_shape q seen articles rec hrec
            exact ⟨b, hrb⟩
          · rw [naLoop_step hp hf he hs]
            intro rec hrec
            rcases List.mem_append.mp hrec with hrec | hrec
            · obtain ⟨b, _, hrb⟩ := pa_shape q seen articles rec hrec
              exact ⟨b, hrb⟩
            · exact ih _ _ rec hrec

theorem ndLoop_attempts_zero (q fd : String)
    (fo : String → Nat → Nat → Except Unit (List Article))
    (fuel page : Nat) (seen : List String) :
    ∀ p ∈ (newsdataLoop q fd fo fuel page seen).attempts, p.2 = 0 := by
  induction fuel generalizing page seen with
  | zero => rw [ndLoop_zero]; simp
  | succ fuel ih =>
    by_cases hp : maxPagesToFetch < page
    · rw [ndLoop_done hp]; simp
    · rcases hf : fo fd page 0 with a | articles
      · rw [ndLoop_error hp hf]
        intro p hp2; simp at hp2; simp [hp2]
      · by_cases he : articles.isEmpty = true
        · rw [ndLoop_nil hp hf he]
          intro p hp2; simp at hp2; simp [hp2]
        · by_cases hs : articles.length < maxArticlesPerRequest
          · rw [ndLoop_short hp hf he hs]
            intro p hp2; simp at hp2; simp [hp2]
          · rw [ndLoop_step hp hf he hs]
            intro p hp2
            simp only [List.mem_cons] at hp2
            rcases hp2 with hp2 | hp2
            · simp [hp2]
            · exact ih _ _ p hp2

theorem ndLoop_collected_shape (q fd : String)
    (fo : String → Nat → Nat → Except Unit (List Article))
    (fuel page : Nat) (seen : List String) :
    ∀ rec ∈ (newsdataLoop q fd fo fuel page seen).collected, ∃ a, rec = cleaned_article q a := by
  induction fuel generalizing page seen with
  | zero => rw [ndLoop_zero]; simp
  | succ fuel ih =>
    by_cases hp : maxPagesToFetch < page
    · rw [ndLoop_done hp]; simp
    · rcases hf : fo fd page 0 with a | articles
      · rw [ndLoop_error hp hf]; simp
      · by_cases he : articles.isEmpty = true
        · rw [ndLoop_nil hp hf he]; simp
        · by_cases hs : articles.length < maxArticlesPerRequest
          · rw [ndLoop_short hp hf he hs]
            intro rec hrec
            obtain ⟨b, _, hrb⟩ := pa_shape q seen articles rec hrec
            exact ⟨b, hrb⟩
          · rw [ndLoop_step hp hf he hs]
            intro rec hrec
            rcases List.mem_append.mp hrec with hrec | hrec
            · obtain ⟨b, _, hrb⟩ := pa_shape q seen articles rec hrec
              exact ⟨b, hrb⟩
            · exact ih _ _ rec hrec

/-! ## Helper lemmas shared by the claim theorems -/

theorem countP_upsert_map_dg (l : List (List (String × JVal))) :
    (l.map DatagovOp.upsert).countP isDgCheckpoint = 0 := by
  induction l with
  | nil => rfl
  | cons x xs ih => simp [List.countP_cons, isDgCheckpoint, ih]

theorem countP_upsert_map_na (l : List (List (String × JVal))) :
    (l.map NewsapiOp.upsert).countP isNaCheckpoint = 0 := by
  induction l with
  | nil => rfl
  | cons x xs ih => simp [List.countP_cons, isNaCheckpoint, ih]

theorem flat_of_scalar {v : JVal} (h : scalarVal v = true) : flatVal v = true := by
  cases v <;> simp_all [scalarVal, flatVal]

theorem dg_keys (ds : DSRecord) :
    (process_dataset_record ds).map Prod.fst = datagov_schema_columns := rfl

theorem na_keys (q : String) (a : Article) :
    (cleaned_article q a).map Prod.fst = newsapi_schema_columns := rfl

theorem nd_keys (q : String) (a : Article) :
    (cleaned_article q a).map Prod.fst = newsdata_schema_columns := rfl

theorem dg_flat_values (ds : DSRecord) (hs : DSScalar ds) :
    ∀ p ∈ process_dataset_record ds, flatVal p.2 = true := by
  obtain ⟨h1, h2, h3, h4, horg, htags⟩ := hs
  intro p hp
  simp only [process_dataset_record, List.mem_cons, List.not_mem_nil, or_false] at hp
  rcases hp with rfl | rfl | rfl | rfl | rfl | rfl | rfl | rfl
  · exact flat_of_scalar h1
  · exact flat_of_scalar h2
  · exact flat_of_scalar h3
  · exact flat_of_scalar h4
  · cases ds.metadata_modified <;> simp [jvalOfOptStr, flatVal]
  · rcases ho : ds.organization with _ | o
    · simp [flatVal]
    · simp only [ho]
      by_cases he : o.isEmpty
      · simp [he, flatVal]
      · simp only [he, if_false]
        exact flat_of_scalar (horg o ho)
  · rfl
  · simp only [flatVal, List.all_eq_true]
    intro v hv
    obtain ⟨tg, htg, hvt⟩ := List.mem_map.mp hv
    rw [← hvt]
    exact htags tg htg

theorem na_flat_values (q : String) (a : Article) (hs : ArticleScalar a) :
    ∀ p ∈ cleaned_article q a, flatVal p.2 = true := by
  obtain ⟨h1, h2, h3, h4, h5, hsrc⟩ := hs
  intro p hp
  simp only [cleaned_article, List.mem_cons, List.not_mem_nil, or_false] at hp
  rcases hp with rfl | rfl | rfl | rfl | rfl | rfl | rfl | rfl | rfl | rfl
  · rcases ho : a.source with _ | src
    · simp [flatVal]
    · simp only [ho]
      exact flat_of_scalar (hsrc src ho).1
  · rcases ho : a.source with _ | src
    · simp [flatVal]
    · simp only [ho]
      exact flat_of_scalar (hsrc src ho).2
  · exact flat_of_scalar h1
  · cases a.title <;> simp [jvalOfOptStr, flatVal]
  · exact flat_of_scalar h2
  · exact flat_of_scalar h3
  · exact flat_of_scalar h4
  · exact flat_of_scalar h5
  · rfl
  · rfl

/-- Article with the title "Breaking News". -/
def artDup1 : Article := { title := some "Breaking News", url := JVal.str "u1" }

/-- Article whose title normalizes to the same cleaned title as `artDup1` but
whose url (the primary key) differs. -/
def artDup2 : Article := { title := some "  breaking NEWS ", url := JVal.str "u2" }

/-! ## Claims -/

/-- Claim C1, counterexample.  The datagov fetch oracle `c1_fetch` fails
transiently: its first attempt at position 0 fails while a second attempt
would return a record.  The update nevertheless performs exactly one attempt
(no retry of any kind), emits nothing and ends the page loop — refuting the
claim that a transient failure is retried up to a budget and that failing
fewer times than the budget does not end the page loop. -/
theorem C1_counterexample :
    c1_fetch 0 1 = Except.ok [{ id := JVal.num 1 }] ∧
    (datagov_update {} {} fiNone c1_fetch tsClock).attempts = [(0, 0)] ∧
    (datagov_update {} {} fiNone c1_fetch tsClock).ops.countP isDgUpsert = 0 :=
  ⟨rfl, rfl, by decide⟩

/-- Claim C1, amended: a page fetch is never retried — every fetch of a
datagov or newsapi run is a first attempt (attempt index 0) at its position,
and every fetch except the last returned a nonempty (for newsapi a full)
page, so the first failing fetch is the run's last and ends the page loop;
there is no retry budget and no backoff. -/
theorem C1_no_retry_single_attempt :
    (∀ (cfg : DatagovCfg) (st : DatagovState) (fi : String → Option Int)
      (fo : Nat → Nat → Except Unit (List DSRecord)) (clock : Nat → String),
      (∀ p ∈ (datagov_update cfg st fi fo clock).attempts, p.2 = 0) ∧
      (∀ p ∈ (datagov_update cfg st fi fo clock).attempts.dropLast,
        ∃ r rs, fo p.1 0 = Except.ok (r :: rs))) ∧
    (∀ (cfg : NewsCfg) (fo : Nat → Nat → Except Unit (List Article)),
      (∀ p ∈ (newsapi_update cfg fo).attempts, p.2 = 0) ∧
      (∀ p ∈ (newsapi_update cfg fo).attempts.dropLast,
        ∃ arts, fo p.1 0 = Except.ok arts ∧ arts.isEmpty = false ∧
          ¬ arts.length < maxArticlesPerRequest)) := by
  constructor
  · intro cfg st fi fo clock
    exact ⟨dgLoop_attempts_zero _ _ _ _ _ _ _ _, dgLoop_prefix_ok _ _ _ _ _ _ _ _⟩
  · intro cfg fo
    exact ⟨naLoop_attempts_zero _ _ _ _ _, naLoop_prefix_full _ _ _ _ _⟩

/-- Claim C1, witness: in the run whose first page holds one record and whose
second fetch fails, the non-final fetch at position 0 indeed returned a
nonempty page. -/
theorem C1_no_retry_single_attempt_witness :
    ∃ r rs, c1w_fetch 0 0 = Except.ok (r :: rs) :=
  (C1_no_retry_single_attempt.1 {} {} fiNone c1w_fetch tsClock).2 (0, 0) (by decide)

/-- Claim C2, counterexample.  In a datagov run over an empty source the
checkpointed `last_run` is the clock reading after the single fetch
(`tsClock 1`), not the run-start reading (`tsClock 0`): the datagov connector
stores the run-end time, refuting the claim for every timestamp-based
incremental run. -/
theorem C2_counterexample :
    (datagov_update {} {} fiNone foEmptyD tsClock).checkpoint_state.last_run =
      some (tsClock 1) ∧ tsClock 1 ≠ tsClock 0 :=
  ⟨rfl, by decide⟩

/-- Claim C2, amended: the newsdata connector checkpoints the run-start
wall-clock time (read before any fetch), while the datagov connector stores
in `last_run` the wall-clock time read after the page loop — the run-end
time, which differs from the run-start time whenever the clock distinguishes
the two readings. -/
theorem C2_cursor_timestamp :
    (∀ (cfg : NewsCfg) (st : NewsdataState) (m30 : String → String)
      (fo : String → Nat → Nat → Except Unit (List Article)) (clock : Nat → String),
      (newsdata_update cfg st m30 fo clock).checkpoint_state.articles_cursor =
        some (clock 0 ++ "Z")) ∧
    (∀ (cfg : DatagovCfg) (st : DatagovState) (fi : String → Option Int)
      (fo : Nat → Nat → Except Unit (List DSRecord)) (clock : Nat → String),
      (datagov_update cfg st fi fo clock).checkpoint_state.last_run =
        some (clock (datagov_update cfg st fi fo clock).attempts.length)) ∧
    (∀ (cfg : DatagovCfg) (st : DatagovState) (fi : String → Option Int)
      (fo : Nat → Nat → Except Unit (List DSRecord)) (clock : Nat → String),
      clock (datagov_update cfg st fi fo clock).attempts.length ≠ clock 0 →
      (datagov_update cfg st fi fo clock).checkpoint_state.last_run ≠ some (clock 0)) := by
  refine ⟨fun _ _ _ _ _ => rfl, fun _ _ _ _ _ => rfl, ?_⟩
  intro cfg st fi fo clock hne heq
  apply hne
  have h2 : (datagov_update cfg st fi fo clock).checkpoint_state.last_run =
      some (clock (datagov_update cfg st fi fo clock).attempts.length) := rfl
  rw [heq] at h2
  exact (Option.some.injEq _ _ ▸ h2).symm

/-- Claim C2, witness: in the empty-source datagov run the stored `last_run`
differs from the run-start clock reading. -/
theorem C2_cursor_timestamp_witness :
    (datagov_update {} {} fiNone foEmptyD tsClock).checkpoint_state.last_run ≠
      some (tsClock 0) :=
  C2_cursor_timestamp.2.2 {} {} fiNone foEmptyD tsClock (by decide)

/-- Claim C3, counterexample.  The newsapi `update` issues no checkpoint at
all (its checkpoint logic was removed), so an invocation of it does not issue
exactly one checkpoint call. -/
theorem C3_counterexample :
    ¬ ((newsapi_update {} foEmptyA).ops.countP isNaCheckpoint = 1) := by decide

/-- Claim C3, amended: the datagov and newsdata connectors issue exactly one
checkpoint per invocation, as the final operation after every upsert of the
run; the newsapi connector issues none. -/
theorem C3_checkpoint_discipline :
    (∀ (cfg : DatagovCfg) (st : DatagovState) (fi : String → Option Int)
      (fo : Nat → Nat → Except Unit (List DSRecord)) (clock : Nat → String),
      (datagov_update cfg st fi fo clock).ops =
        (datagov_update cfg st fi fo clock).ops.dropLast ++
          [DatagovOp.checkpoint (datagov_update cfg st fi fo clock).checkpoint_state] ∧
      (∀ op ∈ (datagov_update cfg st fi fo clock).ops.dropLast, isDgUpsert op = true) ∧
      (datagov_update cfg st fi fo clock).ops.countP isDgCheckpoint = 1) ∧
    (∀ (cfg : NewsCfg) (st : NewsdataState) (m30 : String → String)
      (fo : String → Nat → Nat → Except Unit (List Article)) (clock : Nat → String),
      (newsdata_update cfg st m30 fo clock).ops =
        [NewsdataOp.upsertList (newsdata_update cfg st m30 fo clock).collected,
         NewsdataOp.checkpoint (newsdata_update cfg st m30 fo clock).checkpoint_state] ∧
      (newsdata_update cfg st m30 fo clock).ops.countP isNdCheckpoint = 1) ∧
    (∀ (cfg : NewsCfg) (fo : Nat → Nat → Except Unit (List Article)),
      (newsapi_update cfg fo).ops.countP isNaCheckpoint = 0) := by
  refine ⟨?_, ?_, ?_⟩
  · intro cfg st fi fo clock
    have hops : (datagov_update cfg st fi fo clock).ops =
        ((datagovLoop cfg.page_size cfg.max_rows fi (parse_iso8601 fi st.last_run) fo
          (cfg.max_rows + 1) (st.last_start.getD 0) 0).emitted.map DatagovOp.upsert) ++
          [DatagovOp.checkpoint (datagov_update cfg st fi fo clock).checkpoint_state] := rfl
    refine ⟨?_, ?_, ?_⟩
    · rw [hops, List.dropLast_concat]
    · rw [hops, List.dropLast_concat]
      intro op hop
      obtain ⟨d, _, hd⟩ := List.mem_map.mp hop
      rw [← hd]
      rfl
    · rw [hops, List.countP_append, countP_upsert_map_dg]
      rfl
  · intro cfg st m30 fo clock
    exact ⟨rfl, rfl⟩
  · intro cfg fo
    exact countP_upsert_map_na _

/-- Claim C3, witness: in the one-record datagov run every operation before
the final checkpoint is an upsert; here the single such operation. -/
theorem C3_checkpoint_discipline_witness :
    isDgUpsert (DatagovOp.upsert (process_dataset_record { id := JVal.num 1 })) = true :=
  (C3_checkpoint_discipline.1 {} {} fiNone c1w_fetch tsClock).2.1
    (DatagovOp.upsert (process_dataset_record { id := JVal.num 1 }))
    (List.mem_cons_self _ _)

/-- Claim C4, counterexample.  A datagov run over an empty source (empty
first page, empty prior cursor) emits zero records, yet the checkpointed
cursor mapping is not identical to its default/initial value: the `last_run`
field is set to the current time. -/
theorem C4_counterexample :
    (datagov_update {} {} fiNone foEmptyD tsClock).ops.countP isDgUpsert = 0 ∧
    (datagov_update {} {} fiNone foEmptyD tsClock).checkpoint_state ≠ {} :=
  ⟨by decide, by decide⟩

/-- Claim C4, amended: a run whose source returns no records on the first
page emits zero records and leaves the positional cursor at its initial
value, but the run-timestamp field of the cursor is still updated — datagov
sets `last_run` to the post-fetch clock reading, newsdata sets
`articles_cursor` to the run-start time. -/
theorem C4_empty_first_page :
    (∀ (cfg : DatagovCfg) (st : DatagovState) (fi : String → Option Int)
      (fo : Nat → Nat → Except Unit (List DSRecord)) (clock : Nat → String),
      fo (st.last_start.getD 0) 0 = Except.ok [] →
      (datagov_update cfg st fi fo clock).ops.countP isDgUpsert = 0 ∧
      (datagov_update cfg st fi fo clock).checkpoint_state.last_start =
        some (st.last_start.getD 0) ∧
      (datagov_update cfg st fi fo clock).checkpoint_state.last_run = some (clock 1)) ∧
    (∀ (cfg : NewsCfg) (st : NewsdataState) (m30 : String → String)
      (fo : String → Nat → Nat → Except Unit (List Article)) (clock : Nat → String),
      (∀ fd, fo fd 1 0 = Except.ok []) →
      (newsdata_update cfg st m30 fo clock).collected = [] ∧
      (newsdata_update cfg st m30 fo clock).checkpoint_state.articles_cursor =
        some (clock 0 ++ "Z")) := by
  constructor
  · intro cfg st fi fo clock h
    have hl := @dgLoop_nil cfg.page_size cfg.max_rows fi
      (parse_iso8601 fi st.last_run) fo cfg.max_rows (st.last_start.getD 0) 0 h
    refine ⟨?_, ?_, ?_⟩
    · show ((datagovLoop cfg.page_size cfg.max_rows fi (parse_iso8601 fi st.last_run) fo
        (cfg.max_rows + 1) (st.last_start.getD 0) 0).emitted.map DatagovOp.upsert ++
        [DatagovOp.checkpoint _]).countP isDgUpsert = 0
      rw [hl]
      rfl
    · show some (datagovLoop cfg.page_size cfg.max_rows fi (parse_iso8601 fi st.last_run) fo
        (cfg.max_rows + 1) (st.last_start.getD 0) 0).final_start = _
      rw [hl]
    · show some (clock (datagovLoop cfg.page_size cfg.max_rows fi (parse_iso8601 fi st.last_run) fo
        (cfg.max_rows + 1) (st.last_start.getD 0) 0).attempts.length) = _
      rw [hl]
      rfl
  · intro cfg st m30 fo clock h
    have hl := @ndLoop_nil (cfg.query_term.getD "general news")
      (match st.articles_cursor with
       | some s => s
       | none => m30 (clock 0) ++ "Z")
      fo maxPagesToFetch 1 [] [] (by decide) (h _) rfl
    constructor
    · show (newsdataLoop _ _ fo (maxPagesToFetch + 1) 1 []).collected = []
      rw [hl]
    · rfl

/-- Claim C4, witness: concrete empty-source datagov run with an empty prior
cursor. -/
theorem C4_empty_first_page_witness :
    (datagov_update {} {} fiNone foEmptyD tsClock).ops.countP isDgUpsert = 0 ∧
    (datagov_update {} {} fiNone foEmptyD tsClock).checkpoint_state.last_start = some 0 ∧
    (datagov_update {} {} fiNone foEmptyD tsClock).checkpoint_state.last_run =
      some (tsClock 1) :=
  C4_empty_first_page.1 {} {} fiNone foEmptyD tsClock rfl

/-- Claim C5, counterexample.  The titles of `artSpace1` (one space) and
`artSpace2` (two spaces) are equal after lowercasing and trimming (both
normalize to the empty string) and their urls — the primary key — differ,
yet both records are emitted: the dedup check only fires for a truthy
(nonempty) cleaned title, so the later record is not skipped. -/
theorem C5_counterexample :
    pyStrip (pyLower " ") = pyStrip (pyLower "  ") ∧
    recordGet (cleaned_article "q" artSpace1) "url" = some (JVal.str "u1") ∧
    recordGet (cleaned_article "q" artSpace2) "url" = some (JVal.str "u2") ∧
    ("u1" : String) ≠ "u2" ∧
    (process_articles "q" [] [artSpace1, artSpace2]).2 =
      [cleaned_article "q" artSpace1, cleaned_article "q" artSpace2] :=
  ⟨by decide, rfl, rfl, by decide, rfl⟩

/-- Claim C5, amended: within a single run, among all records whose titles
normalize (lowercase, strip) to the same nonempty cleaned title, only the
first-encountered record is emitted — a later record with the same nonempty
cleaned title contributes nothing to the output even when its primary key
differs, and the first occurrence is emitted; records whose cleaned title is
empty or missing are exempt from this dedup. -/
theorem C5_title_dedup :
    (∀ (q : String) (xs : List Article) (a : Article) (ys : List Article) (t : String),
      clean_title a = some t → t ≠ "" →
      (∃ b ∈ xs, clean_title b = some t) →
      (process_articles q [] (xs ++ a :: ys)).2 = (process_articles q [] (xs ++ ys)).2) ∧
    (∀ (q : String) (xs : List Article) (a : Article) (ys : List Article) (t : String),
      clean_title a = some t → t ≠ "" →
      (∀ b ∈ xs, clean_title b ≠ some t) →
      cleaned_article q a ∈ (process_articles q [] (xs ++ a :: ys)).2) := by
  constructor
  · intro q xs a ys t ht hne hdup
    rw [pa_append, pa_append]
    have hmem : t ∈ (process_articles q [] xs).1 := by
      rw [pa_seen_mem]
      obtain ⟨b, hb, hbt⟩ := hdup
      exact Or.inr ⟨b, hb, hbt, hne⟩
    rw [pa_skip q _ a ys t ht hne hmem]
  · intro q xs a ys t ht hne hfirst
    rw [pa_append]
    have hmem : t ∉ (process_articles q [] xs).1 := by
      rw [pa_seen_mem]
      rintro (hin | ⟨b, hb, hbt, _⟩)
      · exact absurd hin (List.not_mem_nil t)
      · exact hfirst b hb hbt
    rw [pa_first q _ a ys t ht hne hmem]
    simp

/-- Claim C5, witness: the record `artDup2`, whose title normalizes to the
same nonempty cleaned title "breaking news" as the earlier `artDup1`,
contributes nothing to the run output. -/
theorem C5_title_dedup_witness :
    (process_articles "q" [] ([artDup1] ++ artDup2 :: [])).2 =
      (process_articles "q" [] ([artDup1] ++ [])).2 :=
  C5_title_dedup.1 "q" [artDup1] artDup2 [] "breaking news" rfl (by decide)
    ⟨artDup1, by simp, rfl⟩

/-- Claim C6: every record upserted by any connector's update carries exactly
the columns declared by that connector's schema, in declaration order; and
under the API typing of the source fields (scalar pass-through values), every
emitted value is flat — a scalar or a JSON array of scalars — nested source
objects (organization, source) and tag lists having been serialized to flat
forms. -/
theorem C6_schema_columns :
    (∀ (cfg : DatagovCfg) (st : DatagovState) (fi : String → Option Int)
      (fo : Nat → Nat → Except Unit (List DSRecord)) (clock : Nat → String)
      (d : List (String × JVal)),
      DatagovOp.upsert d ∈ (datagov_update cfg st fi fo clock).ops →
      d.map Prod.fst = datagov_schema_columns) ∧
    (∀ (cfg : NewsCfg) (fo : Nat → Nat → Except Unit (List Article))
      (d : List (String × JVal)), d ∈ (newsapi_update cfg fo).articles_to_upsert →
      d.map Prod.fst = newsapi_schema_columns) ∧
    (∀ (cfg : NewsCfg) (st : NewsdataState) (m30 : String → String)
      (fo : String → Nat → Nat → Except Unit (List Article)) (clock : Nat → String)
      (d : List (String × JVal)), d ∈ (newsdata_update cfg st m30 fo clock).collected →
      d.map Prod.fst = newsdata_schema_columns) ∧
    (∀ ds, DSScalar ds → ∀ p ∈ process_dataset_record ds, flatVal p.2 = true) ∧
    (∀ (q : String) (a : Article), ArticleScalar a →
      ∀ p ∈ cleaned_article q a, flatVal p.2 = true) := by
  refine ⟨?_, ?_, ?_, dg_flat_values, na_flat_values⟩
  · intro cfg st fi fo clock d hd
    have hops : (datagov_update cfg st fi fo clock).ops =
        ((datagovLoop cfg.page_size cfg.max_rows fi (parse_iso8601 fi st.last_run) fo
          (cfg.max_rows + 1) (st.last_start.getD 0) 0).emitted.map DatagovOp.upsert) ++
          [DatagovOp.checkpoint (datagov_update cfg st fi fo clock).checkpoint_state] := rfl
    rw [hops] at hd
    rcases List.mem_append.mp hd with hd | hd
    · obtain ⟨rec, hrec, heq⟩ := List.mem_map.mp hd
      injection heq with h2
      obtain ⟨ds, hds⟩ := dgLoop_emitted_shape _ _ _ _ _ _ _ _ rec hrec
      rw [← h2, hds]
      exact dg_keys ds
    · simp at hd
  · intro cfg fo d hd
    obtain ⟨a, ha⟩ := naLoop_collected_shape _ _ _ _ _ d hd
    rw [ha]
    exact na_keys _ a
  · intro cfg st m30 fo clock d hd
    obtain ⟨a, ha⟩ := ndLoop_collected_shape _ _ _ _ _ _ d hd
    rw [ha]
    exact nd_keys _ a

/-- Claim C6, witness: the `id` value of the formatted record of a source
record with a scalar id is flat. -/
theorem C6_schema_columns_witness :
    flatVal (JVal.str "a") = true :=
  C6_schema_columns.2.2.2.1 { id := JVal.str "a" }
    ⟨rfl, rfl, rfl, rfl, fun o h => Option.noConfusion h,
      fun t ht => absurd ht (List.not_mem_nil t)⟩
    ("id", JVal.str "a") (List.mem_cons_self _ _)

set_option maxRecDepth 20000 in
/-- Claim C7: in the datagov run with `page_size = 100`, `max_rows = 150`, an
empty prior cursor and a source of exactly 120 records (one page of 100, one
page of 20), exactly 120 records are upserted — the partial second page is
fully drained — and the saved positional cursor `last_start` equals 200. -/
theorem C7_datagov_two_pages :
    ((datagov_update { page_size := 100, max_rows := 150 } {} fiNone c7_fetch
      tsClock).ops.countP isDgUpsert) = 120 ∧
    (datagov_update { page_size := 100, max_rows := 150 } {} fiNone c7_fetch
      tsClock).checkpoint_state.last_start = some 200 :=
  ⟨by decide, by decide⟩

/-- Claim C8: in the datagov update a source record is skipped by the
incremental filter exactly when the prior state's `last_run` parses to a
timestamp, the record's `metadata_modified` parses to a timestamp, and the
latter is not newer than the former; a record with a missing or unparseable
timestamp, or a run whose cursor has no parseable `last_run`, is never
filtered on this basis. -/
theorem C8_incremental_filter (fromiso : String → Option Int) (st : DatagovState)
    (ds : DSRecord) :
    datagovSkip fromiso (parse_iso8601 fromiso st.last_run) ds = true ↔
      ∃ l, parse_iso8601 fromiso st.last_run = some l ∧
        ∃ m, parse_iso8601 fromiso ds.metadata_modified = some m ∧ m ≤ l := by
  unfold datagovSkip
  rcases hl : parse_iso8601 fromiso st.last_run with _ | l <;>
    rcases hm : parse_iso8601 fromiso ds.metadata_modified with _ | m <;>
      simp [hl, hm]

/-- Claim C9, counterexample.  In a newsdata run whose every fetch fails
nothing is successfully fetched and nothing is collected, yet the
checkpointed cursor is changed away from the prior cursor "P" (it is set to
the run-start time): the cursor is not advanced only as far as the last
successfully fetched position. -/
theorem C9_counterexample :
    (newsdata_update {} { articles_cursor := some "P" } id foFailN tsClock).collected = [] ∧
    (newsdata_update {} { articles_cursor := some "P" } id foFailN tsClock).attempts
      = [(1, 0)] ∧
    (newsdata_update {} { articles_cursor := some "P" } id foFailN
      tsClock).checkpoint_state.articles_cursor ≠ some "P" :=
  ⟨rfl, rfl, by decide⟩

/-- Claim C9, amended: a failing fetch never propagates — every update run
returns normally with its collected records still emitted; the datagov
positional cursor advances exactly one page size per successfully processed
page (never past a failed fetch), the newsapi update upserts everything
collected before the failure, and the newsdata update always upserts its
collected list and checkpoints the run-start timestamp regardless of where
the failure occurred. -/
theorem C9_graceful_failure :
    (∀ (cfg : DatagovCfg) (st : DatagovState) (fi : String → Option Int)
      (fo : Nat → Nat → Except Unit (List DSRecord)) (clock : Nat → String),
      (datagov_update cfg st fi fo clock).checkpoint_state.last_start =
        some (st.last_start.getD 0 +
          cfg.page_size * (datagov_update cfg st fi fo clock).pages_processed)) ∧
    (∀ (cfg : NewsCfg) (fo : Nat → Nat → Except Unit (List Article)),
      (newsapi_update cfg fo).ops =
        (newsapi_update cfg fo).articles_to_upsert.map NewsapiOp.upsert) ∧
    (∀ (cfg : NewsCfg) (st : NewsdataState) (m30 : String → String)
      (fo : String → Nat → Nat → Except Unit (List Article)) (clock : Nat → String),
      (newsdata_update cfg st m30 fo clock).ops =
        [NewsdataOp.upsertList (newsdata_update cfg st m30 fo clock).collected,
         NewsdataOp.checkpoint (newsdata_update cfg st m30 fo clock).checkpoint_state]) := by
  refine ⟨?_, fun _ _ => rfl, fun _ _ _ _ _ => rfl⟩
  intro cfg st fi fo clock
  exact congrArg some (dgLoop_final_start_eq cfg.page_size cfg.max_rows fi
    (parse_iso8601 fi st.last_run) fo (cfg.max_rows + 1) (st.last_start.getD 0) 0)

/-- Claim C10, counterexample.  An article whose content key is present with
the empty string as value is also emitted with the empty string as content:
the empty string does not occur only when the content key is entirely
absent. -/
theorem C10_counterexample :
    artContentEmpty.content = some (JVal.str "") ∧
    artContentEmpty.content ≠ none ∧
    recordGet (cleaned_article "q" artContentEmpty) "content" = some (JVal.str "") :=
  ⟨rfl, by simp [artContentEmpty], rfl⟩

/-- Claim C10, amended: the content column of a record emitted by the news
connectors is never null — it is always a string; a content field present
with value null is emitted as the literal string "None", an absent content
key is emitted as the empty string, and a content field present with a string
value is emitted as that string (hence the empty string also arises from a
present empty-string content). -/
theorem C10_content_never_null (q : String) (a : Article) :
    (∃ s, recordGet (cleaned_article q a) "content" = some (JVal.str s)) ∧
    (a.content = some JVal.null →
      recordGet (cleaned_article q a) "content" = some (JVal.str "None")) ∧
    (a.content = none →
      recordGet (cleaned_article q a) "content" = some (JVal.str "")) ∧
    (∀ s, a.content = some (JVal.str s) →
      recordGet (cleaned_article q a) "content" = some (JVal.str s)) := by
  refine ⟨⟨pythonStr (contentDefault a), ?_⟩, ?_, ?_, ?_⟩
  · rfl
  · intro h
    simp [recordGet, cleaned_article, contentDefault, h, pythonStr]
  · intro h
    simp [recordGet, cleaned_article, contentDefault, h, pythonStr]
  · intro s h
    simp [recordGet, cleaned_article, contentDefault, h, pythonStr]

/-- Claim C10, witness: an article whose content is present with value null
is emitted with content "None". -/
theorem C10_content_never_null_witness :
    recordGet (cleaned_article "q" artContentNull) "content" =
      some (JVal.str "None") :=
  (C10_content_never_null "q" artContentNull).2.1 rfl
